import Mathlib

/-!
# Verification of the ED_Explorer journal-driven state reconstruction engine

Shallow embedding of the repository's exploration ledger (`app.py`), the
value model (`planet_values.py`), the route tracker (`update_route`) and the
persistence cache (`persistence.py`), together with proofs and refutations of
the specification's claims about them.

Modelling conventions:
* Python `str` operations (`in`, `replace`, `strip`) are modelled over
  `List Char` with structural recursion, so everything evaluates in the kernel.
* Python `float` multipliers (`10.0`, `5.0`) are exact on the magnitudes the
  tables produce, so values are modelled as `Nat`; `int(...)` truncation is the
  identity on these exact products.
* Python `dict` literals keep the *last* binding of a duplicated key
  (`planet_values.py` repeats two keys), hence `dictGet` scans from the right.
* `datetime` timestamps are external clock inputs; they are threaded as plain
  parameters where an operation records one and omitted where no claim needs
  them.
-/

/-! ## Python string primitives -/

/-- `isPrefixChars p s` is Python's `s.startswith(p)` on exploded strings. -/
def isPrefixChars : List Char → List Char → Bool
  | [], _ => true
  | _ :: _, [] => false
  | p :: ps, c :: cs => p == c && isPrefixChars ps cs

/-- `containsSub s pat` is Python's `pat in s` on exploded strings. -/
def containsSub : List Char → List Char → Bool
  | [], pat => pat.isEmpty
  | c :: rest, pat => isPrefixChars pat (c :: rest) || containsSub rest pat

/-- Python `pat in s` for `String`. -/
def strContains (s pat : String) : Bool :=
  containsSub s.toList pat.toList

/-- Fuel-indexed body of `str.replace`: replace non-overlapping occurrences of
`pat` left to right.  The fuel is the length of the subject string, which
suffices because every step consumes at least one character. -/
def replaceFuel : Nat → List Char → List Char → List Char → List Char
  | 0, s, _, _ => s
  | Nat.succ n, s, pat, rep =>
    match s with
    | [] => []
    | c :: rest =>
      if !pat.isEmpty && isPrefixChars pat s then
        rep ++ replaceFuel n (s.drop pat.length) pat rep
      else
        c :: replaceFuel n rest pat rep

/-- Python `s.replace(pat, rep)` for `String`. -/
def strReplace (s pat rep : String) : String :=
  ⟨replaceFuel s.toList.length s.toList pat.toList rep.toList⟩

/-- Python `s.strip()` (whitespace from both ends). -/
def strTrim (s : String) : String :=
  ⟨((s.toList.dropWhile Char.isWhitespace).reverse.dropWhile Char.isWhitespace).reverse⟩

/-! ## `planet_values.py` — the value model -/

/-- `PLANET_BASE_VALUES` from `planet_values.py`, in source order (two keys are
bound twice in the source dict literal; the later binding wins, see `dictGet`). -/
def PLANET_BASE_VALUES : List (String × Nat) := [
  ("Earthlike body", 1200000),
  ("Water world", 600000),
  ("Ammonia world", 400000),
  ("Rocky body", 130000),
  ("High metal content body", 160000),
  ("Metal rich body", 140000),
  ("Class I gas giant", 3800),
  ("Class II gas giant", 28000),
  ("Class III gas giant", 1000),
  ("Class IV gas giant", 1100),
  ("Class V gas giant", 1000),
  ("Gas giant with water based life", 900000),
  ("Gas giant with ammonia based life", 900000),
  ("Helium rich gas giant", 900),
  ("Helium gas giant", 900),
  ("Water giant", 670),
  ("Icy body", 500),
  ("Rocky ice body", 500),
  ("Metal rich body", 31000),
  ("High metal content body", 14000)]

/-- `STAR_BASE_VALUES` from `planet_values.py`. -/
def STAR_BASE_VALUES : List (String × Nat) := [
  ("O", 4000), ("B", 3000), ("A", 2500), ("F", 2000), ("G", 1500),
  ("K", 1200), ("M", 1000), ("L", 2500), ("T", 2500), ("Y", 2500),
  ("TTS", 2000), ("AeBe", 3500), ("W", 15000), ("WN", 15000), ("WNC", 15000),
  ("WC", 15000), ("WO", 15000), ("MS", 20000), ("S", 20000), ("C", 3000),
  ("CN", 3000), ("CJ", 3000), ("CH", 3000), ("CHd", 3000), ("N", 22628),
  ("H", 1200), ("X", 30000), ("SupermassiveBlackHole", 40000),
  ("D", 14000), ("DA", 14000), ("DAB", 14000), ("DAO", 14000), ("DAZ", 14000),
  ("DAV", 14000), ("DB", 14000), ("DBZ", 14000), ("DBV", 14000), ("DO", 14000),
  ("DOV", 14000), ("DQ", 14000), ("DC", 14000), ("DCV", 14000), ("DX", 14000)]

/-- `DEFAULT_VALUE` from `planet_values.py`. -/
def DEFAULT_VALUE : Nat := 500

/-- `TERRAFORMABLE_MULTIPLIER` (source: the float `10.0`; exact here). -/
def TERRAFORMABLE_MULTIPLIER : Nat := 10

/-- `DSS_MULTIPLIER` (source: the float `5.0`; exact here). -/
def DSS_MULTIPLIER : Nat := 5

/-- Python `dict.get(k, d)` on a dict built from a literal association list:
the **last** binding of a duplicated key wins, missing keys give the default. -/
def dictGet (l : List (String × Nat)) (k : String) (d : Nat) : Nat :=
  match l.reverse.find? (fun p => p.1 == k) with
  | some p => p.2
  | none => d

/-- Body of `calculate_body_value` from `planet_values.py`; it reads only the
`type` string of the body dict (`body_data.get("type", "")`), which is made
explicit by taking the type string as the argument. -/
def bodyValueOfType (planet_type : String) (has_dss : Bool) : Nat :=
  if strContains planet_type "Asteroid Cluster" then 0
  else if strContains planet_type "Star Class" then
    let star_class := strTrim (strReplace planet_type "Star Class " "")
    dictGet STAR_BASE_VALUES star_class DEFAULT_VALUE
  else
    let base_value := dictGet PLANET_BASE_VALUES planet_type DEFAULT_VALUE
    let base_value :=
      if strContains planet_type "Terraformable" then
        let original_type := strTrim (strReplace planet_type " (Terraformable)" "")
        (dictGet PLANET_BASE_VALUES original_type DEFAULT_VALUE) * TERRAFORMABLE_MULTIPLIER
      else base_value
    if has_dss then base_value * DSS_MULTIPLIER else base_value

/-- `is_valuable_system` from `planet_values.py` (threshold passed explicitly;
the source default is `1_000`). -/
def is_valuable_system (total_value threshold : Nat) : Bool :=
  threshold ≤ total_value

/-- `format_credits` from `planet_values.py`.  The source formats
`value / 1e6` (binary float) with `:.1f`; this is modelled as exact decimal
rounding to one place, which no claim depends on. -/
def format_credits (value : Nat) : String :=
  if 1000000 ≤ value then
    toString ((value * 10 + 500000) / 1000000 / 10) ++ "." ++
      toString ((value * 10 + 500000) / 1000000 % 10) ++ "M cr"
  else if 1000 ≤ value then
    toString ((value * 10 + 500) / 1000 / 10) ++ "." ++
      toString ((value * 10 + 500) / 1000 % 10) ++ "K cr"
  else
    toString value ++ " cr"

/-! ## Data model (`app.py`) -/

/-- One entry of a body's `materials` list (`{"name": ..., "percent": ...}`).
Percentages are floats in the journal; modelled as exact rationals. -/
@[ext]
structure Material where
  name : String
  percent : Rat
deriving DecidableEq, Repr

/-- A body dict as built by `app.py` (`evaluate_planet` / the placeholder in
`handle_signals`).  All keys the program ever reads are present as fields, so
the `setdefault` calls in the source are no-ops here. -/
@[ext]
structure Body where
  name : String
  type : String
  bio_signals : Nat
  geo_signals : Nat
  human_signals : Nat
  guardian_signals : Nat
  thargoid_signals : Nat
  other_signals : Nat
  distance : Rat
  gravity : Rat
  landable : Bool
  terraform_state : String
  materials : List Material
  bio_details : List String
  scanned_genomes : List String
  scanned_fss : Bool
  scanned_dss : Bool
  value : Nat
  icon : String
  style : Option String
  urgency : String
deriving DecidableEq, Repr

/-- `calculate_body_value` from `planet_values.py`: reads only
`body_data.get("type", "")` plus the `has_dss` argument. -/
def calculate_body_value (body_data : Body) (has_dss : Bool) : Nat :=
  bodyValueOfType body_data.type has_dss

/-- `calculate_system_value` from `planet_values.py`:
sum of the stored `value` fields. -/
def calculate_system_value (bodies : List Body) : Nat :=
  bodies.foldl (fun total body => total + body.value) 0

/-- `SystemData` from `app.py` (the creation `timestamp` is an external clock
reading no claim touches; it is not modelled). -/
@[ext]
structure SystemData where
  name : String
  star_class : Option String
  system_address : Option Nat
  bodies : List Body
  total_value : Nat
  dss_used : Bool
deriving DecidableEq, Repr

/-- `ExplorationState` from `app.py` (`session_start` is an external clock
reading; not modelled).  The route fields are written only by `update_route`,
which reads external snapshot files and is modelled separately as a pure
function of those snapshots. -/
@[ext]
structure ExplorationState where
  systems : List SystemData
  current_system : Option SystemData
  next_route_system : Option String
  next_route_star_class : Option String
  remaining_jumps : Nat
deriving DecidableEq, Repr

/-- The fresh ledger (`ExplorationState.__init__`). -/
def initState : ExplorationState :=
  { systems := [], current_system := none, next_route_system := none,
    next_route_star_class := none, remaining_jumps := 0 }

/-- `ExplorationState.new_system` from `app.py`: archive the current system at
the front of `systems` only when it has at least one body, then install a
fresh current system. -/
def ExplorationState.new_system (st : ExplorationState) (name : String)
    (star_class : Option String) (system_address : Option Nat) : ExplorationState :=
  let systems :=
    match st.current_system with
    | some cs => if 0 < cs.bodies.length then cs :: st.systems else st.systems
    | none => st.systems
  { st with
    systems := systems,
    current_system := some
      { name := name, star_class := star_class, system_address := system_address,
        bodies := [], total_value := 0, dss_used := false } }

/-! ### The `add_body` merge -/

/-- One preserved key of the `add_body` merge, integer-count case: Python's
`if key in body and body[key]: body_data[key] = body[key]` (`0` is falsy). -/
def keepNat (old new : Nat) : Nat :=
  if old ≠ 0 then old else new

/-- One preserved key of the `add_body` merge, boolean case
(`False` is falsy). -/
def keepBool (old new : Bool) : Bool :=
  if old then old else new

/-- One preserved key of the `add_body` merge, list/set case
(an empty collection is falsy). -/
def keepList (old new : List String) : List String :=
  if old ≠ [] then old else new

/-- The preserved-key loop of `ExplorationState.add_body` in `app.py`: copy
the signal counts, scan flags, `bio_details` and `scanned_genomes` from the
existing entry into the incoming payload whenever the existing value is
truthy. -/
def preserveKeys (existing incoming : Body) : Body :=
  { incoming with
    bio_signals := keepNat existing.bio_signals incoming.bio_signals,
    geo_signals := keepNat existing.geo_signals incoming.geo_signals,
    human_signals := keepNat existing.human_signals incoming.human_signals,
    guardian_signals := keepNat existing.guardian_signals incoming.guardian_signals,
    thargoid_signals := keepNat existing.thargoid_signals incoming.thargoid_signals,
    other_signals := keepNat existing.other_signals incoming.other_signals,
    scanned_fss := keepBool existing.scanned_fss incoming.scanned_fss,
    scanned_dss := keepBool existing.scanned_dss incoming.scanned_dss,
    bio_details := keepList existing.bio_details incoming.bio_details,
    scanned_genomes := keepList existing.scanned_genomes incoming.scanned_genomes }

/-- The merged record stored for an existing body: preserved keys layered onto
the payload, then `value` recomputed from the merged record's own
`scanned_dss` (source: `calculate_body_value(body_data, body_data.get("scanned_dss", False))`). -/
def mergeBody (existing incoming : Body) : Body :=
  let m := preserveKeys existing incoming
  { m with value := calculate_body_value m m.scanned_dss }

/-- The lookup-and-merge loop of `add_body`: replace the **first** body whose
`name` matches the payload's, or report `none` when no body matches. -/
def mergeIntoList : List Body → Body → Option (List Body)
  | [], _ => none
  | b :: rest, body_data =>
    if b.name == body_data.name then
      some (mergeBody b body_data :: rest)
    else
      match mergeIntoList rest body_data with
      | some rest' => some (b :: rest')
      | none => none

/-- `ExplorationState.add_body` from `app.py`. -/
def ExplorationState.add_body (st : ExplorationState) (body_data : Body) : ExplorationState :=
  match st.current_system with
  | none => st
  | some cs =>
    match mergeIntoList cs.bodies body_data with
    | some bodies' =>
      { st with
        current_system := some
          { cs with bodies := bodies',
                    total_value := calculate_system_value bodies' } }
    | none =>
      let b := { body_data with
                 value := calculate_body_value body_data body_data.scanned_dss }
      let bodies' := cs.bodies ++ [b]
      { st with
        current_system := some
          { cs with bodies := bodies',
                    total_value := calculate_system_value bodies' } }

/-! ## Signal events (`ExplorerApp.handle_signals`, `app.py`) -/

/-- One entry of a journal `Signals` array (`{"Type": ..., "Count": ...}`). -/
@[ext]
structure Signal where
  type : String
  count : Nat
deriving DecidableEq, Repr

/-- The `counts` dict of `handle_signals`. -/
@[ext]
structure SigCounts where
  bio : Nat
  geo : Nat
  human : Nat
  guardian : Nat
  thargoid : Nat
  other : Nat
deriving DecidableEq, Repr

/-- The signal-classification loop of `handle_signals`: per-category counts
are overwritten by the last matching entry, while unmatched entries
accumulate into `other`. -/
def classifySignals (signals : List Signal) : SigCounts :=
  signals.foldl
    (fun counts sig =>
      let st := sig.type
      if strContains st "Biological" then { counts with bio := sig.count }
      else if strContains st "Geological" then { counts with geo := sig.count }
      else if strContains st "Human" then { counts with human := sig.count }
      else if strContains st "Guardian" then { counts with guardian := sig.count }
      else if strContains st "Thargoid" then { counts with thargoid := sig.count }
      else { counts with other := counts.other + sig.count })
    { bio := 0, geo := 0, human := 0, guardian := 0, thargoid := 0, other := 0 }

/-- The genus merge of `handle_signals`: append each incoming genus name not
already present (first-seen order preserved). -/
def mergeDetails (existing incoming : List String) : List String :=
  incoming.foldl (fun acc g => if acc.contains g then acc else acc ++ [g]) existing

/-- The record stored by the found-body branch of `handle_signals`: all six
signal counts overwritten by the event's counts and, when the event carried
genus names (`if bio_details:` in the source), the genus merge applied. -/
def signalsUpdatedBody (b : Body) (counts : SigCounts) (bio_details : List String) : Body :=
  { b with
    bio_signals := counts.bio,
    geo_signals := counts.geo,
    human_signals := counts.human,
    guardian_signals := counts.guardian,
    thargoid_signals := counts.thargoid,
    other_signals := counts.other,
    bio_details := if bio_details ≠ [] then mergeDetails b.bio_details bio_details
                   else b.bio_details }

/-- The found-body branch of `handle_signals`: overwrite all six signal counts
of the **first** body with the given name and, when the event carried genus
names, merge them into `bio_details`; `none` when no body matches. -/
def updateSignalsInList : List Body → String → SigCounts → List String → Option (List Body)
  | [], _, _, _ => none
  | b :: rest, body_name, counts, bio_details =>
    if b.name == body_name then
      some (signalsUpdatedBody b counts bio_details :: rest)
    else
      match updateSignalsInList rest body_name counts bio_details with
      | some rest' => some (b :: rest')
      | none => none

/-- The placeholder body built by `handle_signals` for an unseen body name. -/
def placeholderBody (body_name : String) (counts : SigCounts)
    (bio_details : List String) : Body :=
  { name := body_name, type := "Unbekannt",
    bio_signals := counts.bio, geo_signals := counts.geo,
    human_signals := counts.human, guardian_signals := counts.guardian,
    thargoid_signals := counts.thargoid, other_signals := counts.other,
    distance := 0, gravity := 0, landable := false, terraform_state := "",
    materials := [], bio_details := bio_details, scanned_genomes := [],
    scanned_fss := false, scanned_dss := false, value := 0, icon := "◯",
    style := none, urgency := "normal" }

/-- `any(counts.values())` over the `counts` dict. -/
def SigCounts.anyNonzero (c : SigCounts) : Bool :=
  c.bio ≠ 0 || c.geo ≠ 0 || c.human ≠ 0 || c.guardian ≠ 0 || c.thargoid ≠ 0 || c.other ≠ 0

/-- `ExplorerApp.handle_signals` from `app.py` (a method on the app; it only
touches `self.state`, so it is modelled as a state transformer).  The raw
event is already decomposed into body name, `Signals` entries and
`Genuses` names. -/
def handle_signals (st : ExplorationState) (body_name : String)
    (signals : List Signal) (genuses : List String) : ExplorationState :=
  match st.current_system with
  | none => st
  | some cs =>
    let counts := classifySignals signals
    let bio_details := genuses
    match updateSignalsInList cs.bodies body_name counts bio_details with
    | some bodies' =>
      { st with current_system := some { cs with bodies := bodies' } }
    | none =>
      if counts.anyNonzero then
        st.add_body (placeholderBody body_name counts bio_details)
      else st

/-! ## Scan events (`ExplorerApp.evaluate_planet`, `app.py`) -/

/-- The fields of a journal `Scan` event that `evaluate_planet` reads, with
the `.get` defaults already applied upstream (e.g. `BodyName` defaults to
`"Unbekannt"`). -/
@[ext]
structure ScanEvent where
  planetClass : String
  starType : String
  terraformState : String
  bodyName : String
  distanceFromArrivalLS : Rat
  surfaceGravity : Rat
  landable : Bool
  materials : List Material
deriving DecidableEq, Repr

/-- `ExplorerApp.evaluate_planet` from `app.py`: build the body dict, rewrite
`type`/`icon`/`urgency` through the classification chain, then compute the
initial value from the (possibly rewritten) type string. -/
def evaluate_planet (scan : ScanEvent) : Body :=
  let planet := scan.planetClass
  let star_type := scan.starType
  let terraform := scan.terraformState
  let body_name := scan.bodyName
  let materials := scan.materials.map
    (fun m => { m with name := strReplace m.name "_name" "" })
  let body_data : Body :=
    { name := body_name, type := planet,
      bio_signals := 0, geo_signals := 0, human_signals := 0,
      guardian_signals := 0, thargoid_signals := 0, other_signals := 0,
      distance := scan.distanceFromArrivalLS,
      gravity := if scan.surfaceGravity ≠ 0 then scan.surfaceGravity / (981 / 100) else 0,
      landable := scan.landable, terraform_state := terraform,
      materials := materials, bio_details := [], scanned_genomes := [],
      scanned_fss := false, scanned_dss := false, value := 0, icon := "◯",
      style := none, urgency := "normal" }
  let body_data :=
    if strContains body_name "Belt Cluster" then
      { body_data with icon := "🪨", type := "Asteroid Cluster" }
    else if star_type ≠ "" then
      { body_data with icon := "⭐", type := "Star Class " ++ star_type }
    else if planet == "Earthlike body" then
      { body_data with icon := "🌍", type := "Earthlike World", urgency := "critical" }
    else if planet == "Water world" then
      { body_data with
        icon := "💧",
        type := "Water World" ++ (if terraform == "Terraformable" then " (Terraformable)" else ""),
        urgency := if terraform == "Terraformable" then "critical" else "normal" }
    else if terraform == "Terraformable" then
      { body_data with icon := "🛸", type := planet ++ " (Terraformable)" }
    else if planet == "Ammonia world" then
      { body_data with icon := "☢", type := "Ammonia World" }
    else body_data
  { body_data with value := calculate_body_value body_data false }

/-! ## Remaining handlers and the event step (`ExplorerApp.handle_event`) -/

/-- The `SAAScanComplete` branch of `handle_event`: mark system-level DSS use,
set `scanned_dss` and recompute the value of **every** body with the scanned
name (the loop has no `break`), then recompute the system total. -/
def handle_saa_complete (st : ExplorationState) (body_name : String) : ExplorationState :=
  match st.current_system with
  | none => st
  | some cs =>
    let bodies' := cs.bodies.map
      (fun b =>
        if b.name == body_name then
          let b' := { b with scanned_dss := true }
          { b' with value := calculate_body_value b' true }
        else b)
    { st with
      current_system := some
        { cs with dss_used := true, bodies := bodies',
                  total_value := calculate_system_value bodies' } }

/-- The genome-set add of the `ScanOrganic` branch (Python `set.add`,
modelled as append-if-absent). -/
def genomeAdd (genomes : List String) (genus : String) : List String :=
  if genomes.contains genus then genomes else genomes ++ [genus]

/-- The body loop of the `ScanOrganic` branch: the `return` inside the loop
means only the **first** body with the given name is updated. -/
def addGenomeFirst : List Body → String → String → List Body
  | [], _, _ => []
  | b :: rest, body_name, genus =>
    if b.name == body_name then
      { b with scanned_genomes := genomeAdd b.scanned_genomes genus } :: rest
    else
      b :: addGenomeFirst rest body_name genus

/-- The `ScanOrganic` branch of `handle_event` (`if ... and body_name` makes
an absent body name a no-op). -/
def handle_scan_organic (st : ExplorationState) (body_name : Option String)
    (genus : String) : ExplorationState :=
  match st.current_system, body_name with
  | some cs, some nm =>
    { st with current_system := some { cs with bodies := addGenomeFirst cs.bodies nm genus } }
  | _, _ => st

/-- The semantic operations of the event classifier (§4.1 of the spec): the
`event`-discriminator dispatch of `ExplorerApp.handle_event`, with the raw
payload already decomposed.  `scan` stands for a `Scan` event whose
`ScanType` is in the allow-list `["Detailed", "AutoScan", "Basic",
"NavBeaconDetail"]`; other scan sub-types are ignored. -/
inductive Event where
  | arrival (name : String) (star_class : Option String) (addr : Option Nat)
  | scan (payload : ScanEvent)
  | signals (body_name : String) (sigs : List Signal) (genuses : List String)
  | saaScanComplete (body_name : String)
  | scanOrganic (body_name : Option String) (genus : String)
deriving DecidableEq, Repr

/-- `ExplorerApp.handle_event` from `app.py`, restricted to its effect on the
ledger state.  On arrivals the source additionally calls
`state.update_route()`, which reads two external snapshot files; that
computation is modelled separately by `update_route` below and the route
fields of the state are left untouched here. -/
def handle_event (st : ExplorationState) (e : Event) : ExplorationState :=
  match e with
  | .arrival name star_class addr => st.new_system name star_class addr
  | .scan payload =>
    let body_data := evaluate_planet payload
    st.add_body { body_data with scanned_fss := true }
  | .signals body_name sigs genuses => handle_signals st body_name sigs genuses
  | .saaScanComplete body_name => handle_saa_complete st body_name
  | .scanOrganic body_name genus => handle_scan_organic st body_name genus

/-- A whole journal suffix applied in order. -/
def applyEvents (st : ExplorationState) (es : List Event) : ExplorationState :=
  es.foldl handle_event st

/-- The current system's body list (empty when no current system exists). -/
def currentBodies (st : ExplorationState) : List Body :=
  match st.current_system with
  | some cs => cs.bodies
  | none => []

/-- Every body the ledger holds: bodies of archived systems plus bodies of
the current system. -/
def allBodies (st : ExplorationState) : List Body :=
  (st.systems.map SystemData.bodies).flatten ++ currentBodies st

/-- The first body with a given name in the current system, if any. -/
def findBodyIn (st : ExplorationState) (nm : String) : Option Body :=
  match st.current_system with
  | some cs => cs.bodies.find? (fun b => b.name == nm)
  | none => none

/-- The current system's `total_value`, if a current system exists. -/
def currentTotal (st : ExplorationState) : Option Nat :=
  st.current_system.map SystemData.total_value

/-- The current system's `dss_used` flag, if a current system exists. -/
def currentDssUsed (st : ExplorationState) : Option Bool :=
  st.current_system.map SystemData.dss_used

/-! ## Route tracking (`ExplorationState.update_route`, `app.py`) -/

/-- One entry of the `Route` array of `NavRoute.json`, with the `.get`
defaults applied (`StarSystem` defaults to `"Unbekannt"`). -/
@[ext]
structure RouteEntry where
  systemAddress : Option Nat
  starSystem : String
  starClass : Option String
deriving DecidableEq, Repr

/-- The three route fields `update_route` writes. -/
@[ext]
structure RouteResult where
  next_route_system : Option String
  next_route_star_class : Option String
  remaining_jumps : Nat
deriving DecidableEq, Repr

/-- The `current_index` search of `update_route`: index of the first route
entry whose `SystemAddress` equals the current system's address
(`-1`, i.e. `none`, when absent). -/
def findRouteIdx : List RouteEntry → Option Nat → Option Nat
  | [], _ => none
  | e :: rest, addr =>
    if e.systemAddress == addr then some 0
    else (findRouteIdx rest addr).map (· + 1)

/-- The destination search of `update_route`: the first route entry whose
address equals the destination address and differs from the current
address. -/
def findRouteNext (route : List RouteEntry) (d : Nat) (current_addr : Option Nat) :
    Option RouteEntry :=
  route.find? (fun s => s.systemAddress == some d && s.systemAddress != current_addr)

/-- `ExplorationState.update_route` from `app.py` as a pure function of the
current system's address and the two external snapshots: the destination
address read from `Status.json` (`none` when the file or key is missing) and
the `Route` list read from `NavRoute.json` (`none` when the file is missing).
Python truthiness of `destination_address` makes both `None` and `0` take the
empty branch.  The source requires `current_system` to exist before doing
anything; callers pass its address. -/
def update_route (current_addr : Option Nat) (destination_address : Option Nat)
    (navRoute : Option (List RouteEntry)) : RouteResult :=
  match navRoute, destination_address with
  | some route, some d =>
    if d ≠ 0 then
      let current_index := findRouteIdx route current_addr
      let remaining :=
        match current_index with
        | some i => route.length - i - 1
        | none => route.length
      match findRouteNext route d current_addr with
      | some s =>
        { next_route_system := some s.starSystem,
          next_route_star_class := s.starClass,
          remaining_jumps := remaining }
      | none =>
        { next_route_system := none, next_route_star_class := none,
          remaining_jumps := remaining }
    else
      { next_route_system := none, next_route_star_class := none, remaining_jumps := 0 }
  | _, _ =>
    { next_route_system := none, next_route_star_class := none, remaining_jumps := 0 }

/-! ## Persistence (`persistence.py`) -/

/-- One entry of the `"bodies"` list written by `store_system`. -/
@[ext]
structure StoredBody where
  name : String
  type : String
  value : Nat
  value_formatted : String
  bio_signals : Nat
  geo_signals : Nat
  landable : Bool
  scanned_dss : Bool
  terraformable : Bool
deriving DecidableEq, Repr

/-- One per-system summary record written by `store_system`. -/
@[ext]
structure StoredSystem where
  name : String
  star_class : Option String
  visited : Nat
  total_value : Nat
  total_value_formatted : String
  bodies : List StoredBody
  flags : List String
deriving DecidableEq, Repr

/-- The ledger fields `store_system` reads.  `store_system` is invoked (from
`EDExplorer.py`) with the flat state variant, whose `current_system` is the
plain system name. -/
@[ext]
structure Snapshot where
  current_system : String
  current_system_address : Option Nat
  current_star_class : Option String
  bodies : List Body
deriving DecidableEq, Repr

/-- The cache contents: the `"systems"` dict keyed by `str(system_address)`. -/
@[ext]
structure ExplorationCache where
  systems : List (String × StoredSystem)
deriving DecidableEq, Repr

/-- Python `str(...)` of an optional address (`str(None) = "None"`). -/
def keyOf : Option Nat → String
  | some a => toString a
  | none => "None"

/-- Python `set.add` on a set modelled as a duplicate-free list in insertion
order. -/
def setAdd (l : List String) (x : String) : List String :=
  if l.contains x then l else l ++ [x]

/-- Python dict assignment `d[k] = v` on an association list: replace the
binding when the key exists, append otherwise. -/
def dictInsert (l : List (String × StoredSystem)) (k : String) (v : StoredSystem) :
    List (String × StoredSystem) :=
  match l with
  | [] => [(k, v)]
  | (k', v') :: rest =>
    if k' == k then (k, v) :: rest else (k', v') :: dictInsert rest k v

/-- The summary record `store_system` builds for one important body. -/
def mkStoredBody (b : Body) : StoredBody :=
  { name := b.name, type := b.type, value := b.value,
    value_formatted := format_credits b.value,
    bio_signals := b.bio_signals, geo_signals := b.geo_signals,
    landable := b.landable, scanned_dss := b.scanned_dss,
    terraformable := strContains b.type "Terraformable" }

/-- One iteration of the body loop of `store_system`: update the flag set,
then append the body to `important_bodies` when it has value or bio
signals. -/
def storeStep (acc : List StoredBody × List String) (b : Body) :
    List StoredBody × List String :=
  let flags := acc.2
  let flags := if 0 < b.bio_signals then setAdd flags "BIO" else flags
  let flags := if strContains b.type "Earthlike" then setAdd flags "ELW" else flags
  let flags := if strContains b.type "Terraformable" then setAdd flags "TERRAFORMABLE" else flags
  let flags := if strContains b.type "Water world" then setAdd flags "WW" else flags
  let flags := if strContains b.type "Ammonia" then setAdd flags "AW" else flags
  let important := if 0 < b.value ∨ 0 < b.bio_signals then acc.1 ++ [mkStoredBody b] else acc.1
  (important, flags)

/-- Python `sorted(...)` on strings (insertion sort; `sorted` is stable and
ascending, and the input here is duplicate-free). -/
def sortStrings (l : List String) : List String :=
  List.insertionSort (fun a b => a ≤ b) l

/-- `ExplorationCache.store_system` from `persistence.py`: recompute the
system value from the bodies, do nothing when below the hard threshold of
`1000`, otherwise write the summary record under `str(system_address)`.
`now` is the `datetime.now()` clock reading recorded as `"visited"`. -/
def ExplorationCache.store_system (cache : ExplorationCache) (state : Snapshot)
    (now : Nat) : ExplorationCache :=
  let key := keyOf state.current_system_address
  let total_value := calculate_system_value state.bodies
  if !(is_valuable_system total_value 1000) then cache
  else
    let acc := state.bodies.foldl storeStep ([], [])
    let entry : StoredSystem :=
      { name := state.current_system, star_class := state.current_star_class,
        visited := now, total_value := total_value,
        total_value_formatted := format_credits total_value,
        bodies := acc.1, flags := sortStrings acc.2 }
    { systems := dictInsert cache.systems key entry }

/-- `ExplorationCache.has_system` from `persistence.py`. -/
def ExplorationCache.has_system (cache : ExplorationCache) (system_address : Option Nat) : Bool :=
  (cache.systems.lookup (keyOf system_address)).isSome

/-! ## Basic lemmas about the value model and list helpers -/

lemma foldl_value_shift (l : List Body) (n : Nat) :
    l.foldl (fun total body => total + body.value) n
      = n + l.foldl (fun total body => total + body.value) 0 := by
  induction l generalizing n with
  | nil => simp
  | cons b t ih =>
    rw [List.foldl_cons, List.foldl_cons, ih (n + b.value), ih (0 + b.value)]
    omega

lemma calculate_system_value_append_one (l : List Body) (b : Body) :
    calculate_system_value (l ++ [b]) = calculate_system_value l + b.value := by
  unfold calculate_system_value
  rw [List.foldl_append, foldl_value_shift [b] _]
  simp

/-! ## Claim C1 — Scenario A/B body values -/

/-- The Scenario A scan payload: `BodyName = "Sol A"`,
`PlanetClass = "Earthlike body"`, no star type. -/
def c1ScanEvent : ScanEvent :=
  { planetClass := "Earthlike body", starType := "", terraformState := "",
    bodyName := "Sol A", distanceFromArrivalLS := 0, surfaceGravity := 0,
    landable := false, materials := [] }

/-- Ledger after `Arrival(sys="Sol", addr=1)` then the Scenario A body scan. -/
def c1StateScanned : ExplorationState :=
  handle_event (handle_event initState (Event.arrival "Sol" none (some 1)))
    (Event.scan c1ScanEvent)

/-- Ledger after additionally applying `SurfaceScanCompleted("Sol A")`. -/
def c1StateMapped : ExplorationState :=
  handle_event c1StateScanned (Event.saaScanComplete "Sol A")

/-- **C1**: the claim says Scenario A stores value `1_200_000` (and
`6_000_000` after the surface scan).  The code actually stores `500` and then
`2_500`: `evaluate_planet` rewrites the type string `"Earthlike body"` to the
display name `"Earthlike World"` *before* `calculate_body_value` looks it up,
and the value table is keyed by the journal class `"Earthlike body"`
(which maps to `1_200_000`, `6_000_000` with DSS, as the last two conjuncts
show).  This theorem evaluates the code at the claimed failing input. -/
theorem c1_earthlike_scenario_stores_500_not_1200000 :
    (findBodyIn c1StateScanned "Sol A").map Body.type = some "Earthlike World" ∧
    (findBodyIn c1StateScanned "Sol A").map Body.value = some 500 ∧
    currentTotal c1StateScanned = some 500 ∧
    (findBodyIn c1StateMapped "Sol A").map Body.value = some 2500 ∧
    currentDssUsed c1StateMapped = some true ∧
    currentTotal c1StateMapped = some 2500 ∧
    bodyValueOfType "Earthlike body" false = 1200000 ∧
    bodyValueOfType "Earthlike body" true = 6000000 := by
  decide

/-! ## Claim C6 — case sensitivity of the value lookups -/

/-- A body record whose only relevant field is its classification string
(`calculate_body_value` reads nothing else). -/
def typedBody (ty : String) : Body :=
  { placeholderBody "body" ⟨0, 0, 0, 0, 0, 0⟩ [] with type := ty }

/-- **C6** counterexample: the claim says the table lookups are
case-insensitive, so that two type strings differing only in letter case
yield the same value.  `"Star Class M"` and `"Star Class m"` differ only in
case yet value to `1000` and `500` (the default for a failed lookup):
dict lookups in `calculate_body_value` are exact. -/
theorem c6_case_sensitivity_cex :
    calculate_body_value (typedBody "Star Class M") false = 1000 ∧
    calculate_body_value (typedBody "Star Class m") false = 500 ∧
    calculate_body_value (typedBody "Star Class m") false
      ≠ calculate_body_value (typedBody "Star Class M") false := by
  decide

/-- **C6** (amended): `calculate_body_value` performs its table lookups
case-sensitively — the trailing star class code and the planet type string
are matched exactly against the table keys, a case-variant of a known key
misses the table and falls back to the default value `500`, exactly like any
other unknown string. -/
theorem c6_lookups_case_sensitive :
    calculate_body_value (typedBody "Star Class M") false = 1000 ∧
    calculate_body_value (typedBody "Star Class m") false = DEFAULT_VALUE ∧
    calculate_body_value (typedBody "Star Class QQQ") false = DEFAULT_VALUE ∧
    calculate_body_value (typedBody "Earthlike body") false = 1200000 ∧
    calculate_body_value (typedBody "earthlike body") false = DEFAULT_VALUE ∧
    calculate_body_value (typedBody "EARTHLIKE BODY") false = DEFAULT_VALUE ∧
    calculate_body_value (typedBody "Water world") false = 600000 ∧
    calculate_body_value (typedBody "Water World") false = DEFAULT_VALUE := by
  decide

/-! ## Claim C3 — no spurious archive of an empty system -/

/-- How many systems the ledger tracks overall: archived systems plus the
current one. -/
def totalSystemCount (st : ExplorationState) : Nat :=
  st.systems.length + (match st.current_system with | some _ => 1 | none => 0)

/-- **C3**: a second arrival while the current system still has no bodies
never archives it: the archived list is unchanged by the double arrival, and
starting from a fresh ledger, `Arrival(addr=1)` twice leaves exactly one
system overall (the current one) and an empty `visited_systems` list. -/
theorem c3_no_empty_archive :
    (∀ (st : ExplorationState) (n₁ n₂ : String) (sc₁ sc₂ : Option String)
       (a₁ a₂ : Option Nat),
      (∀ cs, st.current_system = some cs → cs.bodies = []) →
      ((st.new_system n₁ sc₁ a₁).new_system n₂ sc₂ a₂).systems = st.systems) ∧
    (applyEvents initState
        [Event.arrival "Sol" none (some 1), Event.arrival "Sol" none (some 1)]).systems = [] ∧
    totalSystemCount (applyEvents initState
        [Event.arrival "Sol" none (some 1), Event.arrival "Sol" none (some 1)]) = 1 := by
  refine ⟨?_, by decide, by decide⟩
  intro st n₁ n₂ sc₁ sc₂ a₁ a₂ h
  unfold ExplorationState.new_system
  cases hcs : st.current_system with
  | none => simp
  | some cs => simp [h cs hcs]

/-- Witness for `c3_no_empty_archive`: its hypothesis discharged at the fresh
ledger. -/
theorem c3_no_empty_archive_witness :
    ((initState.new_system "Sol" none (some 1)).new_system "Sol" none (some 1)).systems
      = initState.systems :=
  c3_no_empty_archive.1 initState "Sol" "Sol" none none (some 1) (some 1)
    (by intro cs h; simp [initState] at h)

/-! ## Claim C7 — remaining jumps and next system of the route tracker -/

lemma findRouteIdx_first (pre rest : List RouteEntry) (e : RouteEntry)
    (cur : Option Nat) (he : e.systemAddress = cur)
    (hpre : ∀ x ∈ pre, x.systemAddress ≠ cur) :
    findRouteIdx (pre ++ e :: rest) cur = some pre.length := by
  induction pre with
  | nil =>
    simp only [List.nil_append, findRouteIdx]
    rw [if_pos (by simp [he])]
    rfl
  | cons x pre ih =>
    have hx : x.systemAddress ≠ cur := hpre x (by simp)
    simp only [List.cons_append, findRouteIdx]
    rw [if_neg (by simp [hx])]
    simp only [List.append_eq]
    rw [ih (fun y hy => hpre y (by simp [hy]))]
    simp

lemma findRouteIdx_not_found (route : List RouteEntry) (cur : Option Nat)
    (h : ∀ x ∈ route, x.systemAddress ≠ cur) :
    findRouteIdx route cur = none := by
  induction route with
  | nil => rfl
  | cons x rest ih =>
    simp only [findRouteIdx]
    rw [if_neg (by simp [h x (by simp)])]
    rw [ih (fun y hy => h y (by simp [hy]))]
    rfl

/-- The concrete Scenario E route: five entries, the current address `12` at
index 2, the destination address `14` at index 4. -/
def c7Route : List RouteEntry := [
  { systemAddress := some 10, starSystem := "A", starClass := some "G" },
  { systemAddress := some 11, starSystem := "B", starClass := some "K" },
  { systemAddress := some 12, starSystem := "C", starClass := some "M" },
  { systemAddress := some 13, starSystem := "D", starClass := some "F" },
  { systemAddress := some 14, starSystem := "E", starClass := some "A" }]

/-- **C7**: with a truthy destination and the route file present, the tracker
sets `remaining_jumps = n - (i + 1)` where `i` is the index at which the
current address first occurs in the `n`-entry route, and `remaining_jumps =
n` when the current address does not occur at all; on the concrete Scenario E
route the result is `remaining_jumps = 2` and `next_system = "E"` (route
entry 4's name). -/
theorem c7_remaining_jumps :
    (∀ (pre rest : List RouteEntry) (e : RouteEntry) (cur : Option Nat) (d : Nat),
      d ≠ 0 → e.systemAddress = cur → (∀ x ∈ pre, x.systemAddress ≠ cur) →
      (update_route cur (some d) (some (pre ++ e :: rest))).remaining_jumps
        = (pre ++ e :: rest).length - (pre.length + 1)) ∧
    (∀ (route : List RouteEntry) (cur : Option Nat) (d : Nat),
      d ≠ 0 → (∀ x ∈ route, x.systemAddress ≠ cur) →
      (update_route cur (some d) (some route)).remaining_jumps = route.length) ∧
    (update_route (some 12) (some 14) (some c7Route)).remaining_jumps = 2 ∧
    (update_route (some 12) (some 14) (some c7Route)).next_route_system = some "E" := by
  refine ⟨?_, ?_, by decide, by decide⟩
  · intro pre rest e cur d hd he hpre
    simp only [update_route]
    rw [if_pos hd, findRouteIdx_first pre rest e cur he hpre]
    cases hnext : findRouteNext (pre ++ e :: rest) d cur <;>
      simp [hnext] <;> omega
  · intro route cur d hd hnone
    simp only [update_route]
    rw [if_pos hd, findRouteIdx_not_found route cur hnone]
    cases hnext : findRouteNext route d cur <;> simp [hnext]

/-- Witness for `c7_remaining_jumps`: the general clauses discharged on the
Scenario E route. -/
theorem c7_remaining_jumps_witness :
    (update_route (some 12) (some 14) (some c7Route)).remaining_jumps = 5 - (2 + 1) ∧
    (update_route (some 99) (some 14) (some c7Route)).remaining_jumps = 5 := by
  constructor
  · exact c7_remaining_jumps.1 (c7Route.take 2) (c7Route.drop 3)
      { systemAddress := some 12, starSystem := "C", starClass := some "M" }
      (some 12) 14 (by decide) (by decide) (by decide)
  · exact c7_remaining_jumps.2.1 c7Route (some 99) 14 (by decide) (by decide)

/-! ## Claim C10 — placeholder bodies are worth the default value -/

lemma updateSignalsInList_not_found (l : List Body) (nm : String) (c : SigCounts)
    (det : List String) (h : ∀ b ∈ l, b.name ≠ nm) :
    updateSignalsInList l nm c det = none := by
  induction l with
  | nil => rfl
  | cons b rest ih =>
    simp only [updateSignalsInList]
    rw [if_neg (by simp [h b (by simp)])]
    rw [ih (fun y hy => h y (by simp [hy]))]

lemma mergeIntoList_not_found (l : List Body) (bd : Body)
    (h : ∀ b ∈ l, b.name ≠ bd.name) :
    mergeIntoList l bd = none := by
  induction l with
  | nil => rfl
  | cons b rest ih =>
    simp only [mergeIntoList]
    rw [if_neg (by simp [h b (by simp)])]
    rw [ih (fun y hy => h y (by simp [hy]))]

lemma placeholder_initial_value (nm : String) (c : SigCounts) (det : List String) :
    calculate_body_value (placeholderBody nm c det)
      (placeholderBody nm c det).scanned_dss = 500 := by
  show bodyValueOfType "Unbekannt" false = 500
  decide

lemma calculate_system_value_append_500 (l : List Body) (b : Body)
    (hb : b.value = 500) :
    calculate_system_value (l ++ [b]) = calculate_system_value l + 500 := by
  rw [calculate_system_value_append_one, hb]

/-- **C10**: a `SignalsDiscovered` event for a body absent from the current
system, carrying at least one non-zero count, appends a placeholder body
whose recomputed value is the default `500` (its type string `"Unbekannt"`
misses the planet table, overriding the literal `0` in the constructed
record), so the recomputed system total is the old bodies' value sum plus
exactly `500`. -/
theorem c10_placeholder_value_500 :
    ∀ (st : ExplorationState) (cs : SystemData) (nm : String)
      (sigs : List Signal) (gen : List String),
      st.current_system = some cs →
      (∀ b ∈ cs.bodies, b.name ≠ nm) →
      (classifySignals sigs).anyNonzero = true →
      ∃ cs' nb,
        (handle_signals st nm sigs gen).current_system = some cs' ∧
        cs'.bodies = cs.bodies ++ [nb] ∧
        nb.name = nm ∧ nb.value = 500 ∧
        cs'.total_value = calculate_system_value cs.bodies + 500 ∧
        (cs.total_value = calculate_system_value cs.bodies →
          cs'.total_value = cs.total_value + 500) := by
  intro st cs nm sigs gen hcs hnames hany
  have h1 : updateSignalsInList cs.bodies nm (classifySignals sigs) gen = none :=
    updateSignalsInList_not_found _ _ _ _ hnames
  have h2 : mergeIntoList cs.bodies (placeholderBody nm (classifySignals sigs) gen) = none :=
    mergeIntoList_not_found _ _ (by intro b hb; exact hnames b hb)
  simp only [handle_signals, hcs, h1]
  rw [if_pos hany]
  simp only [ExplorationState.add_body, hcs, h2]
  refine ⟨_, _, rfl, rfl, rfl,
    placeholder_initial_value nm (classifySignals sigs) gen, ?_, ?_⟩
  · exact calculate_system_value_append_500 _ _
      (placeholder_initial_value nm (classifySignals sigs) gen)
  · intro hinv
    rw [hinv]
    exact calculate_system_value_append_500 _ _
      (placeholder_initial_value nm (classifySignals sigs) gen)

/-- Witness for `c10_placeholder_value_500`: a concrete bio-signal event on a
fresh system. -/
theorem c10_placeholder_value_500_witness :
    ∃ cs' nb,
      (handle_signals (initState.new_system "Sol" none (some 1)) "Sol B"
          [{ type := "$SAA_SignalType_Biological;", count := 2 }] []).current_system = some cs' ∧
      cs'.bodies = [] ++ [nb] ∧
      nb.name = "Sol B" ∧ nb.value = 500 ∧
      cs'.total_value = calculate_system_value [] + 500 ∧
      ((0 : Nat) = calculate_system_value [] → cs'.total_value = 0 + 500) := by
  have h := c10_placeholder_value_500 (initState.new_system "Sol" none (some 1))
    { name := "Sol", star_class := none, system_address := some 1,
      bodies := [], total_value := 0, dss_used := false }
    "Sol B" [{ type := "$SAA_SignalType_Biological;", count := 2 }] []
    (by decide) (by intro b hb; simp at hb) (by decide)
  exact h

/-! ## Claim C4 — `SurfaceScanCompleted` marks DSS use unconditionally -/

lemma forall2_map_self (l : List Body) (f : Body → Body) (P : Body → Body → Prop)
    (h : ∀ b ∈ l, P b (f b)) : List.Forall₂ P l (l.map f) := by
  induction l with
  | nil => exact List.Forall₂.nil
  | cons b rest ih =>
    exact List.Forall₂.cons (h b (by simp)) (ih (fun y hy => h y (by simp [hy])))

/-- **C4**: whenever a current system exists, applying
`SurfaceScanCompleted(body_name)` sets its `dss_used` flag unconditionally —
whether or not any body carries that name — recomputes `total_value` as the
sum over the updated bodies, and rewrites exactly the bodies named
`body_name`: each gets `scanned_dss = true` and its value recomputed with
`has_dss = true`, while every other body is untouched. -/
theorem c4_saa_complete_sets_dss :
    ∀ (st : ExplorationState) (cs : SystemData) (nm : String),
      st.current_system = some cs →
      ∃ cs',
        (handle_event st (Event.saaScanComplete nm)).current_system = some cs' ∧
        cs'.dss_used = true ∧
        cs'.total_value = calculate_system_value cs'.bodies ∧
        List.Forall₂ (fun b b' =>
          (b.name = nm →
            b'.scanned_dss = true ∧
            b'.value = calculate_body_value { b with scanned_dss := true } true ∧
            b'.name = b.name) ∧
          (b.name ≠ nm → b' = b)) cs.bodies cs'.bodies := by
  intro st cs nm hcs
  simp only [handle_event, handle_saa_complete, hcs]
  refine ⟨_, rfl, rfl, rfl, ?_⟩
  apply forall2_map_self
  intro b _
  by_cases hbn : b.name = nm
  · simp [hbn]
  · have : (b.name == nm) = false := by simp [hbn]
    simp [this, hbn]

/-- Witness for `c4_saa_complete_sets_dss`: the hypothesis discharged on a
one-system ledger with no bodies. -/
theorem c4_saa_complete_sets_dss_witness :
    ∃ cs',
      (handle_event (initState.new_system "Sol" none (some 1))
          (Event.saaScanComplete "Sol A")).current_system = some cs' ∧
      cs'.dss_used = true ∧
      cs'.total_value = calculate_system_value cs'.bodies ∧
      List.Forall₂ (fun b b' =>
        (b.name = "Sol A" →
          b'.scanned_dss = true ∧
          b'.value = calculate_body_value { b with scanned_dss := true } true ∧
          b'.name = b.name) ∧
        (b.name ≠ "Sol A" → b' = b)) [] cs'.bodies :=
  c4_saa_complete_sets_dss (initState.new_system "Sol" none (some 1))
    { name := "Sol", star_class := none, system_address := some 1,
      bodies := [], total_value := 0, dss_used := false }
    "Sol A" (by decide)

/-! ## Claim C2 — signal-count merge semantics -/

lemma updateSignalsInList_found (pre rest : List Body) (b : Body) (nm : String)
    (c : SigCounts) (det : List String) (hb : b.name = nm)
    (hpre : ∀ x ∈ pre, x.name ≠ nm) :
    updateSignalsInList (pre ++ b :: rest) nm c det
      = some (pre ++ signalsUpdatedBody b c det :: rest) := by
  induction pre with
  | nil =>
    simp only [List.nil_append, updateSignalsInList]
    rw [if_pos (by simp [hb])]
  | cons x pre ih =>
    have hx : x.name ≠ nm := hpre x (by simp)
    simp only [List.cons_append, updateSignalsInList]
    rw [if_neg (by simp [hx])]
    simp only [List.append_eq]
    rw [ih (fun y hy => hpre y (by simp [hy]))]

/-- The ledger after `Arrival(Sol, addr=1)` and `SignalsDiscovered(Sol A,
bio=3)` (which creates a placeholder body with `bio_signals = 3`). -/
def c2StateBio3 : ExplorationState :=
  handle_event (handle_event initState (Event.arrival "Sol" none (some 1)))
    (Event.signals "Sol A" [{ type := "$SAA_SignalType_Biological;", count := 3 }] [])

/-- The scan payload of the C2 scenario (`BodyName = "Sol A"`,
`PlanetClass = "Rocky body"`). -/
def c2RockyScan : ScanEvent := { c1ScanEvent with planetClass := "Rocky body" }

/-- The ledger after the full C2 sequence `SignalsDiscovered(bio=3)`,
`BodyScanned(Sol A)`, `SignalsDiscovered(bio=3)` again. -/
def c2FinalState : ExplorationState :=
  handle_event (handle_event c2StateBio3 (Event.scan c2RockyScan))
    (Event.signals "Sol A" [{ type := "$SAA_SignalType_Biological;", count := 3 }] [])

/-- **C2** counterexample: the claim says a later `SignalsDiscovered` event
whose count for a category is zero leaves a stored non-zero count unchanged.
It does not: after `SignalsDiscovered(Sol A, bio=3)` stores `bio_signals = 3`,
a second `SignalsDiscovered(Sol A, geo=1)` event (whose bio count is zero)
overwrites `bio_signals` to `0`. -/
theorem c2_zero_count_overwrites_cex :
    (findBodyIn c2StateBio3 "Sol A").map Body.bio_signals = some 3 ∧
    (findBodyIn (handle_event c2StateBio3
        (Event.signals "Sol A" [{ type := "$SAA_SignalType_Geological;", count := 1 }] []))
      "Sol A").map Body.bio_signals = some 0 ∧
    (findBodyIn (handle_event c2StateBio3
        (Event.signals "Sol A" [{ type := "$SAA_SignalType_Geological;", count := 1 }] []))
      "Sol A").map Body.bio_signals ≠ some 3 := by
  decide

/-- **C2** (amended): a `SignalsDiscovered` event for a body already present
in the current system **replaces** all six stored signal counts with the
event's counts unconditionally — zero and absent categories overwrite stored
non-zero counts; only a `BodyScanned` merge preserves existing non-zero
counts over its payload.  The scan flags, the stored value and the name are
untouched by the overwrite.  The claim's specific sequence
`SignalsDiscovered(bio=3)`, `BodyScanned`, `SignalsDiscovered(bio=3)` still
ends with `bio_signals = 3`, because the repeated event carries the same
non-zero count. -/
theorem c2_signals_replace_counts :
    (∀ (st : ExplorationState) (cs : SystemData) (pre rest : List Body) (b : Body)
       (nm : String) (sigs : List Signal) (gen : List String),
      st.current_system = some cs →
      cs.bodies = pre ++ b :: rest →
      b.name = nm →
      (∀ x ∈ pre, x.name ≠ nm) →
      ∃ cs' b',
        (handle_signals st nm sigs gen).current_system = some cs' ∧
        cs'.bodies = pre ++ b' :: rest ∧
        b'.bio_signals = (classifySignals sigs).bio ∧
        b'.geo_signals = (classifySignals sigs).geo ∧
        b'.human_signals = (classifySignals sigs).human ∧
        b'.guardian_signals = (classifySignals sigs).guardian ∧
        b'.thargoid_signals = (classifySignals sigs).thargoid ∧
        b'.other_signals = (classifySignals sigs).other ∧
        b'.name = b.name ∧ b'.scanned_fss = b.scanned_fss ∧
        b'.scanned_dss = b.scanned_dss ∧ b'.value = b.value) ∧
    (findBodyIn c2FinalState "Sol A").map Body.bio_signals = some 3 := by
  refine ⟨?_, by decide⟩
  intro st cs pre rest b nm sigs gen hcs hbodies hb hpre
  have h1 : updateSignalsInList cs.bodies nm (classifySignals sigs) gen
      = some (pre ++ signalsUpdatedBody b (classifySignals sigs) gen :: rest) := by
    rw [hbodies]
    exact updateSignalsInList_found pre rest b nm _ gen hb hpre
  simp only [handle_signals, hcs, h1]
  exact ⟨_, signalsUpdatedBody b (classifySignals sigs) gen,
    rfl, rfl, rfl, rfl, rfl, rfl, rfl, rfl, rfl, rfl, rfl, rfl⟩

/-- A one-body system used to witness `c2_signals_replace_counts`: the body
has `bio_signals = 5` and an incoming event with no signal entries zeroes all
counts. -/
def c2WitnessState : ExplorationState :=
  { initState with
    current_system := some
      { name := "W", star_class := none, system_address := none,
        bodies := [placeholderBody "X" ⟨5, 0, 0, 0, 0, 0⟩ []],
        total_value := 0, dss_used := false } }

/-- Witness for `c2_signals_replace_counts`: its hypotheses discharged on the
concrete one-body system. -/
theorem c2_signals_replace_counts_witness :
    ∃ cs' b',
      (handle_signals c2WitnessState "X" [] []).current_system = some cs' ∧
      cs'.bodies = [] ++ b' :: [] ∧
      b'.bio_signals = (classifySignals []).bio ∧
      b'.geo_signals = (classifySignals []).geo ∧
      b'.human_signals = (classifySignals []).human ∧
      b'.guardian_signals = (classifySignals []).guardian ∧
      b'.thargoid_signals = (classifySignals []).thargoid ∧
      b'.other_signals = (classifySignals []).other ∧
      b'.name = (placeholderBody "X" ⟨5, 0, 0, 0, 0, 0⟩ []).name ∧
      b'.scanned_fss = (placeholderBody "X" ⟨5, 0, 0, 0, 0, 0⟩ []).scanned_fss ∧
      b'.scanned_dss = (placeholderBody "X" ⟨5, 0, 0, 0, 0, 0⟩ []).scanned_dss ∧
      b'.value = (placeholderBody "X" ⟨5, 0, 0, 0, 0, 0⟩ []).value :=
  c2_signals_replace_counts.1 c2WitnessState
    { name := "W", star_class := none, system_address := none,
      bodies := [placeholderBody "X" ⟨5, 0, 0, 0, 0, 0⟩ []],
      total_value := 0, dss_used := false }
    [] [] (placeholderBody "X" ⟨5, 0, 0, 0, 0, 0⟩ []) "X" [] []
    (by decide) (by decide) (by decide) (by intro x hx; simp at hx)

/-! ## Claim C8 — idempotence of `BodyScanned` -/

lemma keepNat_idem (a b : Nat) : keepNat (keepNat a b) b = keepNat a b := by
  unfold keepNat; split_ifs <;> simp_all

lemma keepBool_idem (a b : Bool) : keepBool (keepBool a b) b = keepBool a b := by
  cases a <;> cases b <;> rfl

lemma keepList_idem (a b : List String) : keepList (keepList a b) b = keepList a b := by
  unfold keepList; split_ifs <;> simp_all

lemma keepNat_self (a : Nat) : keepNat a a = a := by
  unfold keepNat; split_ifs <;> rfl

lemma keepBool_self (a : Bool) : keepBool a a = a := by
  cases a <;> rfl

lemma keepList_self (a : List String) : keepList a a = a := by
  unfold keepList; split_ifs <;> rfl

lemma mergeBody_name (e b : Body) : (mergeBody e b).name = b.name := rfl

/-- Merging the same payload into an already-merged record changes nothing:
every preserved key reaches a fixed point after one merge, and the value
recompute reads only the (stable) type string and `scanned_dss`. -/
lemma mergeBody_merge (e b : Body) : mergeBody (mergeBody e b) b = mergeBody e b := by
  simp only [mergeBody, preserveKeys, calculate_body_value]
  simp [keepNat_idem, keepBool_idem, keepList_idem]

/-- Merging a payload into the freshly stored copy of itself changes
nothing. -/
lemma mergeBody_fresh (b : Body) :
    mergeBody { b with value := calculate_body_value b b.scanned_dss } b
      = { b with value := calculate_body_value b b.scanned_dss } := by
  simp only [mergeBody, preserveKeys, calculate_body_value]
  simp [keepNat_self, keepBool_self, keepList_self]

lemma mergeIntoList_idem (l : List Body) (b : Body) :
    ∀ l', mergeIntoList l b = some l' → mergeIntoList l' b = some l' := by
  induction l with
  | nil => intro l' h; simp [mergeIntoList] at h
  | cons hd t ih =>
    intro l' h
    simp only [mergeIntoList] at h
    by_cases hn : (hd.name == b.name) = true
    · rw [if_pos hn] at h
      obtain rfl : mergeBody hd b :: t = l' := by injection h
      simp only [mergeIntoList]
      rw [if_pos (by simp [mergeBody_name]), mergeBody_merge]
    · rw [if_neg hn] at h
      cases hm : mergeIntoList t b with
      | none => rw [hm] at h; cases h
      | some t' =>
        rw [hm] at h
        obtain rfl : hd :: t' = l' := by injection h
        simp only [mergeIntoList]
        rw [if_neg hn, ih t' hm]

lemma mergeIntoList_append (l : List Body) (b c : Body)
    (h : mergeIntoList l b = none) (hc : c.name = b.name) :
    mergeIntoList (l ++ [c]) b = some (l ++ [mergeBody c b]) := by
  induction l with
  | nil =>
    simp only [List.nil_append, mergeIntoList]
    rw [if_pos (by simp [hc])]
  | cons x t ih =>
    simp only [mergeIntoList] at h
    by_cases hx : (x.name == b.name) = true
    · rw [if_pos hx] at h; cases h
    · rw [if_neg hx] at h
      have ht : mergeIntoList t b = none := by
        cases hm : mergeIntoList t b with
        | none => rfl
        | some t' => rw [hm] at h; cases h
      simp only [List.cons_append, mergeIntoList]
      rw [if_neg hx]
      simp only [List.append_eq]
      rw [ih ht]

/-- `add_body` is idempotent: re-adding the very same payload leaves the
whole ledger unchanged. -/
lemma add_body_idem (st : ExplorationState) (b : Body) :
    (st.add_body b).add_body b = st.add_body b := by
  cases hcs : st.current_system with
  | none => simp only [ExplorationState.add_body, hcs]
  | some cs =>
    cases hm : mergeIntoList cs.bodies b with
    | some l' =>
      have h2 := mergeIntoList_idem cs.bodies b l' hm
      simp only [ExplorationState.add_body, hcs, hm, h2]
    | none =>
      have h2 : mergeIntoList
          (cs.bodies ++ [{ b with value := calculate_body_value b b.scanned_dss }]) b
          = some (cs.bodies ++ [{ b with value := calculate_body_value b b.scanned_dss }]) := by
        rw [mergeIntoList_append cs.bodies b
              { b with value := calculate_body_value b b.scanned_dss } hm rfl,
            mergeBody_fresh]
      simp only [ExplorationState.add_body, hcs, hm, h2]

/-- **C8**: applying the same `BodyScanned` payload twice in succession
yields the same ledger as applying it once — the stored body is identical
(value and merged fields stable) and no duplicate entry is added, since the
whole states are equal. -/
theorem c8_body_scan_idempotent :
    ∀ (st : ExplorationState) (payload : ScanEvent),
      handle_event (handle_event st (Event.scan payload)) (Event.scan payload)
        = handle_event st (Event.scan payload) := by
  intro st payload
  simp only [handle_event]
  exact add_body_idem st _

/-! ## Claim C5 — monotonicity of the scan flags -/

/-- The per-body relation every mutation of a stored body satisfies: the name
is kept and a scan flag that is set is never cleared. -/
def ScanGrows (b b' : Body) : Prop :=
  b'.name = b.name ∧
  (b.scanned_fss = true → b'.scanned_fss = true) ∧
  (b.scanned_dss = true → b'.scanned_dss = true)

lemma scanGrows_refl (b : Body) : ScanGrows b b :=
  ⟨rfl, fun h => h, fun h => h⟩

lemma forall2_scanGrows_refl (l : List Body) : List.Forall₂ ScanGrows l l := by
  induction l with
  | nil => exact List.Forall₂.nil
  | cons b t ih => exact List.Forall₂.cons (scanGrows_refl b) ih

/-- Some body named `nm` in `l` has the selected scan flag set. -/
def hasFlag (l : List Body) (nm : String) (proj : Body → Bool) : Prop :=
  ∃ b ∈ l, b.name = nm ∧ proj b = true

lemma hasFlag_append (l₁ l₂ : List Body) (nm : String) (proj : Body → Bool) :
    hasFlag (l₁ ++ l₂) nm proj ↔ hasFlag l₁ nm proj ∨ hasFlag l₂ nm proj := by
  unfold hasFlag
  constructor
  · rintro ⟨b, hb, h⟩
    rcases List.mem_append.mp hb with hb | hb
    · exact Or.inl ⟨b, hb, h⟩
    · exact Or.inr ⟨b, hb, h⟩
  · rintro (⟨b, hb, h⟩ | ⟨b, hb, h⟩)
    · exact ⟨b, List.mem_append.mpr (Or.inl hb), h⟩
    · exact ⟨b, List.mem_append.mpr (Or.inr hb), h⟩

/-- Flag possession transfers along `Forall₂ ScanGrows` for both flags. -/
lemma hasFlag_of_grows (proj : Body → Bool)
    (hproj : ∀ b b', ScanGrows b b' → proj b = true → proj b' = true)
    {l l' : List Body} (h : List.Forall₂ ScanGrows l l') (nm : String) :
    hasFlag l nm proj → hasFlag l' nm proj := by
  induction h with
  | nil => exact fun h => h
  | cons hrel htail ih =>
    rintro ⟨b, hb, hnm, hf⟩
    rcases List.mem_cons.mp hb with rfl | hb
    · exact ⟨_, List.mem_cons_self _ _, hrel.1.trans hnm, hproj _ _ hrel hf⟩
    · obtain ⟨b', hb', hnm', hf'⟩ := ih ⟨b, hb, hnm, hf⟩
      exact ⟨b', List.mem_cons_of_mem _ hb', hnm', hf'⟩

lemma mergeIntoList_grows (l : List Body) (bd : Body) :
    ∀ l', mergeIntoList l bd = some l' → List.Forall₂ ScanGrows l l' := by
  induction l with
  | nil => intro l' h; simp [mergeIntoList] at h
  | cons hd t ih =>
    intro l' h
    simp only [mergeIntoList] at h
    by_cases hn : (hd.name == bd.name) = true
    · rw [if_pos hn] at h
      obtain rfl : mergeBody hd bd :: t = l' := by injection h
      refine List.Forall₂.cons ?_ (forall2_scanGrows_refl t)
      refine ⟨?_, ?_, ?_⟩
      · rw [mergeBody_name]; exact (eq_of_beq hn).symm
      · intro hf
        show keepBool hd.scanned_fss bd.scanned_fss = true
        rw [hf]; rfl
      · intro hf
        show keepBool hd.scanned_dss bd.scanned_dss = true
        rw [hf]; rfl
    · rw [if_neg hn] at h
      cases hm : mergeIntoList t bd with
      | none => rw [hm] at h; cases h
      | some t' =>
        rw [hm] at h
        obtain rfl : hd :: t' = l' := by injection h
        exact List.Forall₂.cons (scanGrows_refl hd) (ih t' hm)

lemma updateSignalsInList_grows (l : List Body) (nm : String) (c : SigCounts)
    (det : List String) :
    ∀ l', updateSignalsInList l nm c det = some l' → List.Forall₂ ScanGrows l l' := by
  induction l with
  | nil => intro l' h; simp [updateSignalsInList] at h
  | cons hd t ih =>
    intro l' h
    simp only [updateSignalsInList] at h
    by_cases hn : (hd.name == nm) = true
    · rw [if_pos hn] at h
      obtain rfl : signalsUpdatedBody hd c det :: t = l' := by injection h
      exact List.Forall₂.cons ⟨rfl, fun hf => hf, fun hf => hf⟩ (forall2_scanGrows_refl t)
    · rw [if_neg hn] at h
      cases hm : updateSignalsInList t nm c det with
      | none => rw [hm] at h; cases h
      | some t' =>
        rw [hm] at h
        obtain rfl : hd :: t' = l' := by injection h
        exact List.Forall₂.cons (scanGrows_refl hd) (ih t' hm)

lemma addGenomeFirst_grows (l : List Body) (nm genus : String) :
    List.Forall₂ ScanGrows l (addGenomeFirst l nm genus) := by
  induction l with
  | nil => exact List.Forall₂.nil
  | cons hd t ih =>
    simp only [addGenomeFirst]
    by_cases hn : (hd.name == nm) = true
    · rw [if_pos hn]
      exact List.Forall₂.cons ⟨rfl, fun hf => hf, fun hf => hf⟩ (forall2_scanGrows_refl t)
    · rw [if_neg hn]
      exact List.Forall₂.cons (scanGrows_refl hd) ih

lemma allBodies_new_system (st : ExplorationState) (n : String)
    (sc : Option String) (a : Option Nat) :
    ∀ x ∈ allBodies st, x ∈ allBodies (st.new_system n sc a) := by
  intro x hx
  unfold allBodies currentBodies at hx
  unfold allBodies currentBodies ExplorationState.new_system
  cases hcs : st.current_system with
  | none =>
    simp only [hcs] at hx ⊢
    simpa using hx
  | some cs =>
    by_cases hb : 0 < cs.bodies.length
    · simp only [hcs, if_pos hb] at hx ⊢
      simp only [List.map_cons, List.flatten_cons, List.mem_append] at hx ⊢
      simp at hx ⊢
      tauto
    · have hempty : cs.bodies = [] := List.length_eq_zero.mp (by omega)
      simp only [hcs, if_neg hb] at hx ⊢
      simp [hempty] at hx ⊢
      exact hx

instance (l : List Body) (nm : String) (proj : Body → Bool) :
    Decidable (hasFlag l nm proj) := by
  unfold hasFlag; infer_instance

lemma add_body_flag (proj : Body → Bool)
    (hproj : ∀ b b', ScanGrows b b' → proj b = true → proj b' = true)
    (st : ExplorationState) (bd : Body) (nm : String) :
    hasFlag (allBodies st) nm proj → hasFlag (allBodies (st.add_body bd)) nm proj := by
  intro h
  cases hcs : st.current_system with
  | none => simp only [ExplorationState.add_body, hcs]; exact h
  | some cs =>
    have hall : allBodies st
        = (st.systems.map SystemData.bodies).flatten ++ cs.bodies := by
      unfold allBodies currentBodies; rw [hcs]
    rw [hall, hasFlag_append] at h
    cases hm : mergeIntoList cs.bodies bd with
    | some l' =>
      simp only [ExplorationState.add_body, hcs, hm]
      unfold allBodies currentBodies
      rw [hasFlag_append]
      rcases h with h | h
      · exact Or.inl h
      · exact Or.inr (hasFlag_of_grows proj hproj (mergeIntoList_grows _ _ l' hm) nm h)
    | none =>
      simp only [ExplorationState.add_body, hcs, hm]
      unfold allBodies currentBodies
      rw [hasFlag_append]
      rcases h with h | h
      · exact Or.inl h
      · refine Or.inr ?_
        rw [hasFlag_append]
        exact Or.inl h

lemma handle_event_flag (proj : Body → Bool)
    (hproj : ∀ b b', ScanGrows b b' → proj b = true → proj b' = true)
    (e : Event) (st : ExplorationState) (nm : String) :
    hasFlag (allBodies st) nm proj → hasFlag (allBodies (handle_event st e)) nm proj := by
  intro h
  cases e with
  | arrival n sc a =>
    obtain ⟨b, hb, hn, hf⟩ := h
    exact ⟨b, allBodies_new_system st n sc a b hb, hn, hf⟩
  | scan payload =>
    exact add_body_flag proj hproj st _ nm h
  | signals bnm sigs gen =>
    cases hcs : st.current_system with
    | none => simp only [handle_event, handle_signals, hcs]; exact h
    | some cs =>
      have hall : allBodies st
          = (st.systems.map SystemData.bodies).flatten ++ cs.bodies := by
        unfold allBodies currentBodies; rw [hcs]
      cases hupd : updateSignalsInList cs.bodies bnm (classifySignals sigs) gen with
      | some l' =>
        simp only [handle_event, handle_signals, hcs, hupd]
        unfold allBodies currentBodies
        rw [hasFlag_append]
        rw [hall, hasFlag_append] at h
        rcases h with h | h
        · exact Or.inl h
        · exact Or.inr
            (hasFlag_of_grows proj hproj (updateSignalsInList_grows _ _ _ _ l' hupd) nm h)
      | none =>
        simp only [handle_event, handle_signals, hcs, hupd]
        by_cases hany : (classifySignals sigs).anyNonzero = true
        · rw [if_pos hany]
          exact add_body_flag proj hproj st _ nm h
        · rw [if_neg hany]
          exact h
  | saaScanComplete bnm =>
    cases hcs : st.current_system with
    | none => simp only [handle_event, handle_saa_complete, hcs]; exact h
    | some cs =>
      have hall : allBodies st
          = (st.systems.map SystemData.bodies).flatten ++ cs.bodies := by
        unfold allBodies currentBodies; rw [hcs]
      simp only [handle_event, handle_saa_complete, hcs]
      unfold allBodies currentBodies
      rw [hasFlag_append]
      rw [hall, hasFlag_append] at h
      rcases h with h | h
      · exact Or.inl h
      · refine Or.inr (hasFlag_of_grows proj hproj ?_ nm h)
        apply forall2_map_self
        intro b _
        by_cases hbn : (b.name == bnm) = true
        · rw [if_pos hbn]
          exact ⟨rfl, fun hf => hf, fun _ => rfl⟩
        · rw [if_neg hbn]
          exact scanGrows_refl b
  | scanOrganic bnm genus =>
    cases hcs : st.current_system with
    | none =>
      cases bnm <;> simp only [handle_event, handle_scan_organic, hcs] <;> exact h
    | some cs =>
      cases bnm with
      | none => simp only [handle_event, handle_scan_organic, hcs]; exact h
      | some bn =>
        have hall : allBodies st
            = (st.systems.map SystemData.bodies).flatten ++ cs.bodies := by
          unfold allBodies currentBodies; rw [hcs]
        simp only [handle_event, handle_scan_organic, hcs]
        unfold allBodies currentBodies
        rw [hasFlag_append]
        rw [hall, hasFlag_append] at h
        rcases h with h | h
        · exact Or.inl h
        · exact Or.inr
            (hasFlag_of_grows proj hproj (addGenomeFirst_grows cs.bodies bn genus) nm h)

lemma applyEvents_flag (proj : Body → Bool)
    (hproj : ∀ b b', ScanGrows b b' → proj b = true → proj b' = true)
    (es : List Event) :
    ∀ (st : ExplorationState) (nm : String),
      hasFlag (allBodies st) nm proj → hasFlag (allBodies (applyEvents st es)) nm proj := by
  induction es with
  | nil => intro st nm h; exact h
  | cons e es ih =>
    intro st nm h
    exact ih (handle_event st e) nm (handle_event_flag proj hproj e st nm h)

/-- **C5**: the scan flags are monotonic — for every event sequence and every
body name, if some stored body of that name has `scanned_fss` (resp.
`scanned_dss`) set, then after applying the whole sequence some stored body
of that name still has it set: no event ever resets a set flag. -/
theorem c5_scan_flags_monotone :
    ∀ (es : List Event) (st : ExplorationState) (nm : String),
      (hasFlag (allBodies st) nm Body.scanned_fss →
        hasFlag (allBodies (applyEvents st es)) nm Body.scanned_fss) ∧
      (hasFlag (allBodies st) nm Body.scanned_dss →
        hasFlag (allBodies (applyEvents st es)) nm Body.scanned_dss) := by
  intro es st nm
  exact ⟨applyEvents_flag Body.scanned_fss (fun b b' hg => hg.2.1) es st nm,
         applyEvents_flag Body.scanned_dss (fun b b' hg => hg.2.2) es st nm⟩

/-- A ledger whose single stored body has both scan flags set, used to
witness `c5_scan_flags_monotone`. -/
def c5WitnessState : ExplorationState :=
  { initState with
    current_system := some
      { name := "Sol", star_class := none, system_address := some 1,
        bodies := [{ placeholderBody "Sol A" ⟨0, 0, 0, 0, 0, 0⟩ [] with
                     scanned_fss := true, scanned_dss := true }],
        total_value := 0, dss_used := true } }

/-- Witness for `c5_scan_flags_monotone`: both flags survive a concrete
event sequence (an arrival that archives the system, a rescan, a signal
event and a surface scan). -/
theorem c5_scan_flags_monotone_witness :
    hasFlag (allBodies (applyEvents c5WitnessState
        [Event.arrival "Next" none (some 2), Event.scan c1ScanEvent,
         Event.signals "Sol A" [] [], Event.saaScanComplete "Sol A"]))
      "Sol A" Body.scanned_fss ∧
    hasFlag (allBodies (applyEvents c5WitnessState
        [Event.arrival "Next" none (some 2), Event.scan c1ScanEvent,
         Event.signals "Sol A" [] [], Event.saaScanComplete "Sol A"]))
      "Sol A" Body.scanned_dss := by
  constructor
  · exact (c5_scan_flags_monotone
      [Event.arrival "Next" none (some 2), Event.scan c1ScanEvent,
       Event.signals "Sol A" [] [], Event.saaScanComplete "Sol A"]
      c5WitnessState "Sol A").1 (by decide)
  · exact (c5_scan_flags_monotone
      [Event.arrival "Next" none (some 2), Event.scan c1ScanEvent,
       Event.signals "Sol A" [] [], Event.saaScanComplete "Sol A"]
      c5WitnessState "Sol A").2 (by decide)

/-! ## Claim C9 — the persistence threshold and stored summary -/

lemma mem_setAdd (l : List String) (x f : String) :
    f ∈ setAdd l x ↔ f ∈ l ∨ f = x := by
  unfold setAdd
  by_cases hx : l.contains x
  · rw [if_pos hx]
    have : x ∈ l := by simpa using hx
    constructor
    · exact Or.inl
    · rintro (h | rfl) <;> [exact h; exact this]
  · rw [if_neg hx]
    simp

lemma storeStep_fst (acc : List StoredBody × List String) (b : Body) :
    (storeStep acc b).1
      = if 0 < b.value ∨ 0 < b.bio_signals then acc.1 ++ [mkStoredBody b] else acc.1 := rfl

lemma mem_setAdd_ite (l : List String) (x f : String) (c : Prop) [Decidable c] :
    (f ∈ if c then setAdd l x else l) ↔ f ∈ l ∨ (f = x ∧ c) := by
  by_cases hc : c
  · rw [if_pos hc, mem_setAdd]; tauto
  · rw [if_neg hc]; tauto

lemma storeStep_flags_mem (acc : List StoredBody × List String) (b : Body) (f : String) :
    f ∈ (storeStep acc b).2 ↔
      f ∈ acc.2 ∨
      (f = "BIO" ∧ 0 < b.bio_signals) ∨
      (f = "ELW" ∧ strContains b.type "Earthlike" = true) ∨
      (f = "TERRAFORMABLE" ∧ strContains b.type "Terraformable" = true) ∨
      (f = "WW" ∧ strContains b.type "Water world" = true) ∨
      (f = "AW" ∧ strContains b.type "Ammonia" = true) := by
  simp only [storeStep, mem_setAdd_ite]
  tauto

lemma storeFold_fst (l : List Body) (acc : List StoredBody × List String) :
    (l.foldl storeStep acc).1
      = acc.1 ++ (l.filter (fun b => decide (0 < b.value ∨ 0 < b.bio_signals))).map
          mkStoredBody := by
  induction l generalizing acc with
  | nil => simp
  | cons b t ih =>
    rw [List.foldl_cons, ih]
    by_cases hb : 0 < b.value ∨ 0 < b.bio_signals
    · rw [storeStep_fst, if_pos hb]
      simp [List.filter_cons, hb]
    · rw [storeStep_fst, if_neg hb]
      simp [List.filter_cons, hb]

set_option maxHeartbeats 1000000 in
lemma storeFold_flags_mem (l : List Body) (acc : List StoredBody × List String)
    (f : String) :
    f ∈ (l.foldl storeStep acc).2 ↔
      f ∈ acc.2 ∨
      (f = "BIO" ∧ ∃ b ∈ l, 0 < b.bio_signals) ∨
      (f = "ELW" ∧ ∃ b ∈ l, strContains b.type "Earthlike" = true) ∨
      (f = "TERRAFORMABLE" ∧ ∃ b ∈ l, strContains b.type "Terraformable" = true) ∨
      (f = "WW" ∧ ∃ b ∈ l, strContains b.type "Water world" = true) ∨
      (f = "AW" ∧ ∃ b ∈ l, strContains b.type "Ammonia" = true) := by
  induction l generalizing acc with
  | nil => simp
  | cons b t ih =>
    rw [List.foldl_cons, ih, storeStep_flags_mem]
    simp only [List.exists_mem_cons_iff, and_or_left, or_assoc]
    itauto

lemma lookup_dictInsert (l : List (String × StoredSystem)) (k : String)
    (v : StoredSystem) :
    List.lookup k (dictInsert l k v) = some v := by
  induction l with
  | nil => simp [dictInsert, List.lookup]
  | cons p rest ih =>
    obtain ⟨k', v'⟩ := p
    simp only [dictInsert]
    by_cases hk : (k' == k) = true
    · rw [if_pos hk]
      simp [List.lookup]
    · rw [if_neg hk]
      have hne : ¬(k = k') := by intro he; subst he; simp at hk
      have hb : (k == k') = false := beq_eq_false_iff_ne.mpr hne
      simp [List.lookup, hb, ih]

/-- **C9**: `store_system` writes nothing when the recomputed system value is
below the threshold `1000`; at or above the threshold it stores, under
`str(system_address)`, a summary carrying the system name, star class, the
visit clock reading, the total in raw and formatted form, the bodies
filtered to those with positive value or a positive bio-signal count, and a
sorted flag set drawn from `BIO`/`ELW`/`TERRAFORMABLE`/`WW`/`AW` according
to the bodies' signal counts and classification strings. -/
theorem c9_store_system_threshold :
    ∀ (cache : ExplorationCache) (state : Snapshot) (now : Nat),
      (calculate_system_value state.bodies < 1000 →
        cache.store_system state now = cache) ∧
      (1000 ≤ calculate_system_value state.bodies →
        ∃ entry,
          List.lookup (keyOf state.current_system_address)
            (cache.store_system state now).systems = some entry ∧
          entry.name = state.current_system ∧
          entry.star_class = state.current_star_class ∧
          entry.visited = now ∧
          entry.total_value = calculate_system_value state.bodies ∧
          entry.total_value_formatted = format_credits (calculate_system_value state.bodies) ∧
          entry.bodies = (state.bodies.filter
              (fun b => decide (0 < b.value ∨ 0 < b.bio_signals))).map mkStoredBody ∧
          List.Sorted (fun a b => a ≤ b) entry.flags ∧
          (∀ f, f ∈ entry.flags ↔
            ((f = "BIO" ∧ ∃ b ∈ state.bodies, 0 < b.bio_signals) ∨
             (f = "ELW" ∧ ∃ b ∈ state.bodies, strContains b.type "Earthlike" = true) ∨
             (f = "TERRAFORMABLE" ∧ ∃ b ∈ state.bodies, strContains b.type "Terraformable" = true) ∨
             (f = "WW" ∧ ∃ b ∈ state.bodies, strContains b.type "Water world" = true) ∨
             (f = "AW" ∧ ∃ b ∈ state.bodies, strContains b.type "Ammonia" = true)))) := by
  intro cache state now
  constructor
  · intro h
    have hval : is_valuable_system (calculate_system_value state.bodies) 1000 = false := by
      simp [is_valuable_system]; omega
    simp only [ExplorationCache.store_system, hval]
    rfl
  · intro h
    have hval : is_valuable_system (calculate_system_value state.bodies) 1000 = true := by
      simp [is_valuable_system]; omega
    simp only [ExplorationCache.store_system, hval, Bool.not_true, Bool.false_eq_true,
      if_false]
    refine ⟨_, lookup_dictInsert _ _ _, rfl, rfl, rfl, rfl, rfl, ?_, ?_, ?_⟩
    · rw [storeFold_fst]
      rfl
    · exact List.sorted_insertionSort _ _
    · intro f
      show f ∈ sortStrings (state.bodies.foldl storeStep ([], [])).2 ↔ _
      unfold sortStrings
      rw [(List.perm_insertionSort _ _).mem_iff, storeFold_flags_mem]
      simp

/-- A snapshot below the threshold: one placeholder with stored value `0`. -/
def c9LowSnap : Snapshot :=
  { current_system := "Low", current_system_address := some 11,
    current_star_class := some "M",
    bodies := [placeholderBody "x" ⟨1, 0, 0, 0, 0, 0⟩ []] }

/-- A snapshot above the threshold: one valuable Earthlike body with bio
signals. -/
def c9HighSnap : Snapshot :=
  { current_system := "High", current_system_address := some 12,
    current_star_class := some "G",
    bodies := [{ placeholderBody "b" ⟨2, 0, 0, 0, 0, 0⟩ [] with
                 value := 1200, type := "Earthlike World" }] }

/-- Witness for `c9_store_system_threshold`: both clauses discharged on
concrete snapshots. -/
theorem c9_store_system_threshold_witness :
    (ExplorationCache.store_system ⟨[]⟩ c9LowSnap 7 = ⟨[]⟩) ∧
    (∃ entry,
      List.lookup (keyOf c9HighSnap.current_system_address)
        (ExplorationCache.store_system ⟨[]⟩ c9HighSnap 7).systems = some entry ∧
      entry.name = c9HighSnap.current_system ∧
      entry.star_class = c9HighSnap.current_star_class ∧
      entry.visited = 7 ∧
      entry.total_value = calculate_system_value c9HighSnap.bodies ∧
      entry.total_value_formatted = format_credits (calculate_system_value c9HighSnap.bodies) ∧
      entry.bodies = (c9HighSnap.bodies.filter
          (fun b => decide (0 < b.value ∨ 0 < b.bio_signals))).map mkStoredBody ∧
      List.Sorted (fun a b => a ≤ b) entry.flags ∧
      (∀ f, f ∈ entry.flags ↔
        ((f = "BIO" ∧ ∃ b ∈ c9HighSnap.bodies, 0 < b.bio_signals) ∨
         (f = "ELW" ∧ ∃ b ∈ c9HighSnap.bodies, strContains b.type "Earthlike" = true) ∨
         (f = "TERRAFORMABLE" ∧ ∃ b ∈ c9HighSnap.bodies, strContains b.type "Terraformable" = true) ∨
         (f = "WW" ∧ ∃ b ∈ c9HighSnap.bodies, strContains b.type "Water world" = true) ∨
         (f = "AW" ∧ ∃ b ∈ c9HighSnap.bodies, strContains b.type "Ammonia" = true)))) :=
  ⟨(c9_store_system_threshold ⟨[]⟩ c9LowSnap 7).1 (by decide),
   (c9_store_system_threshold ⟨[]⟩ c9HighSnap 7).2 (by decide)⟩
